import Mathlib

/-!
Shallow embedding of `src/view.rs` of the plotlib repository (the view
composition core), together with spec-modelled interfaces for its external
collaborators (`axis::Range`, `axis::Axis`, `representation::Representation`,
`svg_render`, `text_render`), and proofs of the spec's claims about it.

Floating point is modelled by the extended rationals `WithBot (WithTop ℚ)`
(`f64` values other than NaN, with both infinities); `f64::min` / `f64::max`
on non-NaN arguments are the lattice `min` / `max` of this order, and
`f64::INFINITY` / `f64::NEG_INFINITY` are its top and bottom elements.
Machine integers (`i32`, `u32`) are modelled by `Int` / `Nat`; the explicitly
wrapping operation `i32::wrapping_neg` and the `as u32` / `as i32` casts,
which truncate in every build profile, are modelled with explicit reduction
modulo `2 ^ 32`.
-/

namespace Plotlib

/-- Model of non-NaN `f64`: a rational, or one of the two infinities. -/
abbrev F64 := WithBot (WithTop ℚ)

/-- Model of `f64::INFINITY`. -/
def F64.posInf : F64 := ((⊤ : WithTop ℚ) : WithBot (WithTop ℚ))

/-- Model of `f64::NEG_INFINITY`. -/
def F64.negInf : F64 := (⊥ : WithBot (WithTop ℚ))

/-- A finite `f64` value. -/
def F64.val (q : ℚ) : F64 := ((q : WithTop ℚ) : WithBot (WithTop ℚ))

/-- Modelled from the spec: `axis::Range` (not under `src/`) is an immutable
`(lower, upper)` pair of floats; `Range::new(min, max)` stores its arguments,
with no validation (the invariant `lower ≤ upper` is not enforced). -/
structure Range where
  lower : F64
  upper : F64
deriving DecidableEq

/-- Modelled from the spec: `axis::Range::new`. -/
def Range.new (mn mx : F64) : Range := ⟨mn, mx⟩

/-- Modelled from the spec: `axis::Axis` (not under `src/`) is stateless and
purely a function of a Range; `Axis::new(lower, upper)` records the bounds
the view passes it. -/
structure Axis where
  lower : F64
  upper : F64
deriving DecidableEq

/-- Modelled from the spec: `axis::Axis::new`. -/
def Axis.new (lo hi : F64) : Axis := ⟨lo, hi⟩

/-- Modelled from the spec: the `Representation` trait (not under `src/`): one
plotted series, polymorphic over `{range, to_svg, to_text}`.
`range d` reports the data extent `(min, max)` along dimension `d`;
`to_svg` produces a vector drawable unit (modelled abstractly as a string);
`to_text` produces a text face block (a string). -/
structure Representation where
  range : Nat → F64 × F64
  to_svg : Axis → Axis → ℚ → ℚ → String
  to_text : Axis → Axis → Nat → Nat → String

/-- A node of the SVG output group of `View::to_svg`: either the drawable
unit returned by a representation's `to_svg`, or the axis furniture produced
by the (spec-modelled, not under `src/`) `svg_render::draw_x_axis` /
`svg_render::draw_y_axis`, recorded with the arguments the view passes. -/
inductive SvgNode where
  | reprDrawing (payload : String)
  | xAxisFurniture (a : Axis) (face_width : ℚ)
  | yAxisFurniture (a : Axis) (face_height : ℚ)
deriving DecidableEq

/-- `View` (src/view.rs lines 17-21): an ordered list of representations plus
optional explicit range overrides. -/
structure View where
  representations : List Representation
  x_range : Option Range
  y_range : Option Range

/-- `View::new` (src/view.rs lines 27-33). -/
def View.new : View :=
  { representations := []
    x_range := none
    y_range := none }

/-- `View::add` (src/view.rs lines 38-41): push one representation. -/
def View.add (v : View) (repr : Representation) : View :=
  { v with representations := v.representations ++ [repr] }

/-- `View::x_range` the builder method (src/view.rs lines 46-49); named
`set_x_range` here because the field accessor already uses the source name. -/
def View.set_x_range (v : View) (mn mx : F64) : View :=
  { v with x_range := some (Range.new mn mx) }

/-- `View::y_range` the builder method (src/view.rs lines 54-57). -/
def View.set_y_range (v : View) (mn mx : F64) : View :=
  { v with y_range := some (Range.new mn mx) }

/-- `View::default_x_range` (src/view.rs lines 59-68): the loop updating the
mutable pair `(x_min, x_max)` from `(INFINITY, NEG_INFINITY)` is a left fold. -/
def View.default_x_range (v : View) : Range :=
  let p := v.representations.foldl
    (fun acc repr => (min acc.1 (repr.range 0).1, max acc.2 (repr.range 0).2))
    (F64.posInf, F64.negInf)
  Range.new p.1 p.2

/-- `View::default_y_range` (src/view.rs lines 70-79). -/
def View.default_y_range (v : View) : Range :=
  let p := v.representations.foldl
    (fun acc repr => (min acc.1 (repr.range 1).1, max acc.2 (repr.range 1).2))
    (F64.posInf, F64.negInf)
  Range.new p.1 p.2

/-- Range resolution shared by `to_svg` and `to_text`
(`self.x_range.as_ref().unwrap_or(&default_x_range)`, src/view.rs lines 87-88
and 112-113). -/
def View.resolved_x_range (v : View) : Range :=
  v.x_range.getD v.default_x_range

/-- Range resolution for y (src/view.rs lines 90-91 and 115-116). -/
def View.resolved_y_range (v : View) : Range :=
  v.y_range.getD v.default_y_range

/-- The x axis both renderers build (`axis::Axis::new(x_range.lower,
x_range.upper)`, src/view.rs lines 93 and 118). -/
def View.xAxis (v : View) : Axis :=
  Axis.new v.resolved_x_range.lower v.resolved_x_range.upper

/-- The y axis both renderers build (src/view.rs lines 94 and 119). -/
def View.yAxis (v : View) : Axis :=
  Axis.new v.resolved_y_range.lower v.resolved_y_range.upper

/-- Body of `View::to_svg` after axis resolution (src/view.rs lines 85,
96-105): append each representation's drawing in order, then the x-axis
furniture, then the y-axis furniture. -/
def View.svg_body (v : View) (x_axis y_axis : Axis) (face_width face_height : ℚ) :
    List SvgNode :=
  let view_group : List SvgNode := []
  let view_group := v.representations.foldl
    (fun g repr => g ++ [SvgNode.reprDrawing (repr.to_svg x_axis y_axis face_width face_height)])
    view_group
  let view_group := view_group ++ [SvgNode.xAxisFurniture x_axis face_width]
  let view_group := view_group ++ [SvgNode.yAxisFurniture y_axis face_height]
  view_group

/-- `View::to_svg` (src/view.rs lines 84-106). -/
def View.to_svg (v : View) (face_width face_height : ℚ) : List SvgNode :=
  v.svg_body v.xAxis v.yAxis face_width face_height

/-- Reduce an integer into the `i32` value range `[-2^31, 2^31)` modulo
`2^32` (two's complement wraparound). -/
def i32.wrap (x : Int) : Int := (x + 2 ^ 31) % 2 ^ 32 - 2 ^ 31

/-- `i32::wrapping_neg`: wrapping negation, `-x` reduced into the `i32`
range (so `i32::MIN.wrapping_neg() = i32::MIN`). -/
def i32.wrapping_neg (x : Int) : Int := i32.wrap (-x)

/-- The Rust cast `as u32` applied to an `i32` value: reinterpret the two's
complement bits, i.e. reduce modulo `2^32` into `[0, 2^32)`. -/
def u32.ofI32 (x : Int) : Nat := (x % 2 ^ 32).toNat

/-- The Rust cast `as i32` applied to a `u32` value: reduce modulo `2^32`
into the `i32` range. -/
def i32.ofU32 (n : Nat) : Int := i32.wrap n

/-- The gutter computation of `View::to_text` (src/view.rs lines 126-128):
`std::cmp::max(longest_y_label_width as i32 + 1, start_offset.wrapping_neg())
as u32`. The `i32` addition is modelled exactly (it would panic, not wrap, on
overflow in a checked build); `wrapping_neg` and the final `as u32` cast
truncate in every build and are modelled modulo `2^32`. -/
def left_gutter_width (longest_y_label_width start_offset : Int) : Nat :=
  u32.ofI32 (max (longest_y_label_width + 1) (i32.wrapping_neg start_offset))

/-- The blank base canvas of `View::to_text` (src/view.rs lines 133-134):
`(0..view_height).map(|_| (0..view_width).map(|_| ' ').collect()).collect()`. -/
def blank (view_width view_height : Nat) : List String :=
  (List.range view_height).map
    (fun _ => String.mk ((List.range view_width).map (fun _ => ' ')))

/-- Modelled from the spec: the `text_render` collaborator (not under `src/`).
`render_y_axis_strings(axis, face_height)` returns the y-axis label block and
the widest label's character length; `render_x_axis_strings(axis, face_width)`
returns the x-axis label block and its signed start offset (possibly
negative); `overlay(canvas, block, x_offset, y_offset)` composites a block
onto a canvas at a signed offset. The view is parametric in this interface. -/
structure TextRender where
  render_y_axis_strings : Axis → Nat → String × Int
  render_x_axis_strings : Axis → Nat → String × Int
  overlay : String → String → Int → Int → String

/-- Body of `View::to_text` after axis resolution (src/view.rs lines
121-153): label blocks, gutter, blank canvas, then the overlay sequence
(each representation's face, the y-axis block, the x-axis block). -/
def View.text_body (v : View) (tr : TextRender) (x_axis y_axis : Axis)
    (face_width face_height : Nat) : String :=
  let ys := tr.render_y_axis_strings y_axis face_height
  let y_axis_string := ys.1
  let longest_y_label_width := ys.2
  let xs := tr.render_x_axis_strings x_axis face_width
  let x_axis_string := xs.1
  let start_offset := xs.2
  let lgw := left_gutter_width longest_y_label_width start_offset
  let view_width := face_width + 1 + lgw + 1
  let view_height := face_height + 3
  let view_string := String.intercalate "\n" (blank view_width view_height)
  let view_string := v.representations.foldl
    (fun s repr =>
      tr.overlay s (repr.to_text x_axis y_axis face_width face_height)
        (i32.ofU32 lgw + 1) 0)
    view_string
  let view_string :=
    tr.overlay view_string y_axis_string
      (i32.ofU32 lgw - 1 - longest_y_label_width) 0
  let view_string :=
    tr.overlay view_string x_axis_string
      (i32.ofU32 lgw + 0) (i32.ofU32 face_height + 0)
  view_string

/-- `View::to_text` (src/view.rs lines 111-154). -/
def View.to_text (v : View) (tr : TextRender) (face_width face_height : Nat) :
    String :=
  v.text_body tr v.xAxis v.yAxis face_width face_height

/-! ### Concrete sample data (used by witnesses) -/

/-- A sample representation whose data lies in `[0, 1] × [2, 5]`. -/
def sampleRepA : Representation :=
  { range := fun d => if d = 0 then (F64.val 0, F64.val 1) else (F64.val 2, F64.val 5)
    to_svg := fun _ _ _ _ => "A"
    to_text := fun _ _ _ _ => "aaa" }

/-- A sample representation whose data lies in `[-3, 1/2] × [0, 7]`. -/
def sampleRepB : Representation :=
  { range := fun d => if d = 0 then (F64.val (-3), F64.val (1 / 2)) else (F64.val 0, F64.val 7)
    to_svg := fun _ _ _ _ => "B"
    to_text := fun _ _ _ _ => "bbb" }

/-- Same rendering output as `sampleRepA` but a different reported extent. -/
def sampleRepA2 : Representation :=
  { range := fun _ => (F64.val 100, F64.val 200)
    to_svg := sampleRepA.to_svg
    to_text := sampleRepA.to_text }

/-- The view `[A, B]` with no overrides. -/
def sampleViewAB : View := (View.new.add sampleRepA).add sampleRepB

/-- The view `[B, A]` with no overrides. -/
def sampleViewBA : View := (View.new.add sampleRepB).add sampleRepA

/-- Data inside `[0, 1]`, both overrides set to `[-10, 10]`. -/
def sampleOverrideView : View :=
  ((View.new.add sampleRepA).set_x_range (F64.val (-10)) (F64.val 10)).set_y_range
    (F64.val (-10)) (F64.val 10)

/-- View containing `sampleRepA`, both overrides set to `[0, 1]`. -/
def sampleViewC9A : View :=
  ((View.new.add sampleRepA).set_x_range (F64.val 0) (F64.val 1)).set_y_range
    (F64.val 0) (F64.val 1)

/-- View containing `sampleRepA2`, both overrides set to `[0, 1]`. -/
def sampleViewC9B : View :=
  ((View.new.add sampleRepA2).set_x_range (F64.val 0) (F64.val 1)).set_y_range
    (F64.val 0) (F64.val 1)

/-- A concrete text-render collaborator with constant label blocks. -/
def sampleTR : TextRender :=
  { render_y_axis_strings := fun _ _ => ("5|\n0|", 1)
    render_x_axis_strings := fun _ _ => ("0    10", -1)
    overlay := fun canvas block _ _ => canvas ++ block }

/-! ### Helper lemmas -/

/-- The paired min/max fold of the default range computation is the pair of
the two separate folds. -/
theorem foldl_range_pair (l : List Representation) (d : Nat) (a b : F64) :
    l.foldl
        (fun acc repr => (min acc.1 (repr.range d).1, max acc.2 (repr.range d).2))
        (a, b)
      = (l.foldl (fun lo repr => min lo (repr.range d).1) a,
         l.foldl (fun hi repr => max hi (repr.range d).2) b) := by
  induction l generalizing a b with
  | nil => rfl
  | cons x xs ih => simp only [List.foldl_cons]; exact ih _ _

/-- Appending singletons in a left fold is mapping and appending. -/
theorem foldl_append_singleton {α β : Type} (f : α → β) (l : List α)
    (init : List β) :
    l.foldl (fun g x => g ++ [f x]) init = init ++ l.map f := by
  induction l generalizing init with
  | nil => simp
  | cons x xs ih => simp [ih]

/-- A left fold by a left-commutative operation is invariant under
permutation of the list. -/
theorem foldl_perm {α β : Type} (g : β → α → β)
    (hcomm : ∀ b x y, g (g b x) y = g (g b y) x)
    {l₁ l₂ : List α} (h : l₁.Perm l₂) :
    ∀ b, l₁.foldl g b = l₂.foldl g b := by
  induction h with
  | nil => intro b; rfl
  | cons x _ ih => intro b; simp only [List.foldl_cons]; exact ih _
  | swap x y l => intro b; simp only [List.foldl_cons, hcomm]
  | trans _ _ ih₁ ih₂ => intro b; exact (ih₁ b).trans (ih₂ b)

/-- Left folds agree over `Forall₂`-related lists when the step function
respects the relation. -/
theorem foldl_congr_forall₂ {α β : Type} {R : α → α → Prop}
    {l₁ l₂ : List α} (h : List.Forall₂ R l₁ l₂) (g : β → α → β)
    (hg : ∀ b x y, R x y → g b x = g b y) :
    ∀ b, l₁.foldl g b = l₂.foldl g b := by
  induction h with
  | nil => intro b; rfl
  | cons hxy _ ih =>
    intro b
    simp only [List.foldl_cons, hg _ _ _ hxy]
    exact ih _

/-- Maps agree over `Forall₂`-related lists when the function respects the
relation. -/
theorem map_congr_forall₂ {α β : Type} {R : α → α → Prop}
    {l₁ l₂ : List α} (h : List.Forall₂ R l₁ l₂) (f : α → β)
    (hf : ∀ x y, R x y → f x = f y) :
    l₁.map f = l₂.map f := by
  induction h with
  | nil => rfl
  | cons hxy _ ih => simp only [List.map_cons, hf _ _ hxy, ih]

/-- When the x override is present, resolution returns it verbatim. -/
theorem resolved_x_range_of_some {v : View} {r : Range}
    (h : v.x_range = some r) : v.resolved_x_range = r := by
  simp [View.resolved_x_range, h]

/-- When the y override is present, resolution returns it verbatim. -/
theorem resolved_y_range_of_some {v : View} {r : Range}
    (h : v.y_range = some r) : v.resolved_y_range = r := by
  simp [View.resolved_y_range, h]

/-- Reduction into the `i32` range fixes values already in range. -/
theorem i32.wrap_eq_self {x : Int} (h₁ : -(2 ^ 31) ≤ x) (h₂ : x < 2 ^ 31) :
    i32.wrap x = x := by
  unfold i32.wrap
  omega

/-- The `as u32` cast is exact on nonnegative in-range values. -/
theorem u32.ofI32_eq {x : Int} (h₁ : 0 ≤ x) (h₂ : x < 2 ^ 32) :
    (u32.ofI32 x : Int) = x := by
  unfold u32.ofI32
  omega

/-- `wrapping_neg` lands in the `i32` range. -/
theorem i32.wrapping_neg_lt (x : Int) : i32.wrapping_neg x < 2 ^ 31 := by
  unfold i32.wrapping_neg i32.wrap
  omega

/-- `wrapping_neg` is plain negation away from `i32::MIN`. -/
theorem i32.wrapping_neg_eq_neg {x : Int} (h₁ : -(2 ^ 31) < x)
    (h₂ : x ≤ 2 ^ 31) : i32.wrapping_neg x = -x := by
  unfold i32.wrapping_neg
  exact i32.wrap_eq_self (by omega) (by omega)

/-- With a nonnegative label width whose successor fits in `i32`, the gutter
is the mathematical maximum and all casts are exact. -/
theorem left_gutter_width_int (longest start_offset : Int)
    (h₀ : 0 ≤ longest) (h₁ : longest + 1 < 2 ^ 31) :
    (left_gutter_width longest start_offset : Int)
      = max (longest + 1) (i32.wrapping_neg start_offset) := by
  unfold left_gutter_width
  have hlt := i32.wrapping_neg_lt start_offset
  rcases le_total (longest + 1) (i32.wrapping_neg start_offset) with h | h
  · rw [max_eq_right h, u32.ofI32_eq (by omega) (by omega)]
  · rw [max_eq_left h, u32.ofI32_eq (by omega) (by omega)]

/-- Under the same side conditions, the gutter fits in `i32`, so the
`as i32` cast in the overlay offsets is exact. -/
theorem i32_ofU32_left_gutter_width (longest start_offset : Int)
    (h₀ : 0 ≤ longest) (h₁ : longest + 1 < 2 ^ 31) :
    i32.ofU32 (left_gutter_width longest start_offset)
      = (left_gutter_width longest start_offset : Int) := by
  have h := left_gutter_width_int longest start_offset h₀ h₁
  have hlt := i32.wrapping_neg_lt start_offset
  unfold i32.ofU32
  apply i32.wrap_eq_self
  · exact le_trans (by omega) (Int.natCast_nonneg _)
  · rw [h]
    rcases le_total (longest + 1) (i32.wrapping_neg start_offset) with hc | hc
    · rw [max_eq_right hc]; omega
    · rw [max_eq_left hc]; omega

/-- The default x range written as two separate folds. -/
theorem default_x_range_eq_folds (v : View) :
    v.default_x_range = Range.new
      (v.representations.foldl (fun lo repr => min lo (repr.range 0).1) F64.posInf)
      (v.representations.foldl (fun hi repr => max hi (repr.range 0).2) F64.negInf) := by
  simp only [View.default_x_range, foldl_range_pair]

/-- The default y range written as two separate folds. -/
theorem default_y_range_eq_folds (v : View) :
    v.default_y_range = Range.new
      (v.representations.foldl (fun lo repr => min lo (repr.range 1).1) F64.posInf)
      (v.representations.foldl (fun hi repr => max hi (repr.range 1).2) F64.negInf) := by
  simp only [View.default_y_range, foldl_range_pair]

/-! ### Claims -/

/-- Claim C1: for every view with no explicit range override for a dimension,
and for every list of representations, the resolved range for that dimension
is exactly the fold over all representations taking the minimum of all
reported minima and the maximum of all reported maxima, seeded with
lower = +infinity and upper = -infinity. -/
theorem C1_default_range_is_minmax_fold (v : View) :
    (v.x_range = none →
      v.resolved_x_range = Range.new
        (v.representations.foldl (fun lo repr => min lo (repr.range 0).1) F64.posInf)
        (v.representations.foldl (fun hi repr => max hi (repr.range 0).2) F64.negInf)) ∧
    (v.y_range = none →
      v.resolved_y_range = Range.new
        (v.representations.foldl (fun lo repr => min lo (repr.range 1).1) F64.posInf)
        (v.representations.foldl (fun hi repr => max hi (repr.range 1).2) F64.negInf)) := by
  constructor
  · intro h
    rw [View.resolved_x_range, h, Option.getD_none, default_x_range_eq_folds]
  · intro h
    rw [View.resolved_y_range, h, Option.getD_none, default_y_range_eq_folds]

/-- Witness for C1 at the concrete view `[A, B]` with no overrides. -/
theorem C1_default_range_is_minmax_fold_witness :
    sampleViewAB.x_range = none ∧
    sampleViewAB.resolved_x_range = Range.new
      (sampleViewAB.representations.foldl
        (fun lo repr => min lo (repr.range 0).1) F64.posInf)
      (sampleViewAB.representations.foldl
        (fun hi repr => max hi (repr.range 0).2) F64.negInf) :=
  ⟨rfl, (C1_default_range_is_minmax_fold sampleViewAB).1 rfl⟩

/-- Claim C6: the output group of `to_svg` contains each representation's
drawing in insertion order, and the x-axis and y-axis furniture are appended
after all representation drawings (axis furniture last, on top of data). -/
theorem C6_svg_group_order (v : View) (face_width face_height : ℚ) :
    v.to_svg face_width face_height
      = v.representations.map
          (fun repr =>
            SvgNode.reprDrawing (repr.to_svg v.xAxis v.yAxis face_width face_height))
        ++ [SvgNode.xAxisFurniture v.xAxis face_width,
            SvgNode.yAxisFurniture v.yAxis face_height] := by
  simp [View.to_svg, View.svg_body, foldl_append_singleton]

/-- Claim C7: a view with zero representations and no explicit range for a
dimension resolves that dimension to the inverted interval
(+infinity, -infinity); the core does not sanitize or special-case it. -/
theorem C7_empty_view_inverted_range (v : View)
    (hreps : v.representations = []) :
    (v.x_range = none → v.resolved_x_range = Range.new F64.posInf F64.negInf) ∧
    (v.y_range = none → v.resolved_y_range = Range.new F64.posInf F64.negInf) := by
  constructor
  · intro h
    rw [View.resolved_x_range, h, Option.getD_none, View.default_x_range, hreps]
    rfl
  · intro h
    rw [View.resolved_y_range, h, Option.getD_none, View.default_y_range, hreps]
    rfl

/-- Witness for C7 at the concrete empty view. -/
theorem C7_empty_view_inverted_range_witness :
    View.new.representations = [] ∧ View.new.x_range = none ∧
    View.new.y_range = none ∧
    View.new.resolved_x_range = Range.new F64.posInf F64.negInf ∧
    View.new.resolved_y_range = Range.new F64.posInf F64.negInf :=
  ⟨rfl, rfl, rfl, (C7_empty_view_inverted_range View.new rfl).1 rfl,
    (C7_empty_view_inverted_range View.new rfl).2 rfl⟩

/-- Claim C8: the default x and y ranges are invariant under permutation of
the representation list. -/
theorem C8_default_range_perm_invariant (v₁ v₂ : View)
    (h : v₁.representations.Perm v₂.representations) :
    v₁.default_x_range = v₂.default_x_range ∧
    v₁.default_y_range = v₂.default_y_range := by
  constructor
  · rw [View.default_x_range, View.default_x_range,
      foldl_perm _ (fun b x y => by simp [inf_right_comm, sup_right_comm]) h]
  · rw [View.default_y_range, View.default_y_range,
      foldl_perm _ (fun b x y => by simp [inf_right_comm, sup_right_comm]) h]

/-- Witness for C8 at the concrete views `[A, B]` and `[B, A]`. -/
theorem C8_default_range_perm_invariant_witness :
    sampleViewAB.representations.Perm sampleViewBA.representations ∧
    sampleViewAB.default_x_range = sampleViewBA.default_x_range ∧
    sampleViewAB.default_y_range = sampleViewBA.default_y_range := by
  have hp : sampleViewAB.representations.Perm sampleViewBA.representations :=
    List.Perm.swap sampleRepB sampleRepA []
  exact ⟨hp, (C8_default_range_perm_invariant _ _ hp).1,
    (C8_default_range_perm_invariant _ _ hp).2⟩

/-- Claim C10: each builder operation modifies only its own field: `new`
yields an empty list with both overrides absent; `add` appends one
representation leaving both overrides unchanged; the x-range builder replaces
only the x override; the y-range builder replaces only the y override. -/
theorem C10_builders_frame_conditions :
    (View.new.representations = [] ∧ View.new.x_range = none ∧
      View.new.y_range = none) ∧
    (∀ (v : View) (repr : Representation),
      (v.add repr).representations = v.representations ++ [repr] ∧
      (v.add repr).x_range = v.x_range ∧ (v.add repr).y_range = v.y_range) ∧
    (∀ (v : View) (mn mx : F64),
      (v.set_x_range mn mx).x_range = some (Range.new mn mx) ∧
      (v.set_x_range mn mx).representations = v.representations ∧
      (v.set_x_range mn mx).y_range = v.y_range) ∧
    (∀ (v : View) (mn mx : F64),
      (v.set_y_range mn mx).y_range = some (Range.new mn mx) ∧
      (v.set_y_range mn mx).representations = v.representations ∧
      (v.set_y_range mn mx).x_range = v.x_range) :=
  ⟨⟨rfl, rfl, rfl⟩, fun _ _ => ⟨rfl, rfl, rfl⟩,
    fun _ _ _ => ⟨rfl, rfl, rfl⟩, fun _ _ _ => ⟨rfl, rfl, rfl⟩⟩

/-- Claim C2: if an explicit range override is set for a dimension, both
renderers build that dimension's axis from the override verbatim, regardless
of the data extents the representations report: the rendering equals the
render body applied to the axis built from the override's bounds. -/
theorem C2_override_takes_precedence (v : View) (tr : TextRender)
    (rx ry : Range) (fwq fhq : ℚ) (fw fh : Nat) :
    (v.x_range = some rx →
      v.to_svg fwq fhq
        = v.svg_body (Axis.new rx.lower rx.upper) v.yAxis fwq fhq ∧
      v.to_text tr fw fh
        = v.text_body tr (Axis.new rx.lower rx.upper) v.yAxis fw fh) ∧
    (v.y_range = some ry →
      v.to_svg fwq fhq
        = v.svg_body v.xAxis (Axis.new ry.lower ry.upper) fwq fhq ∧
      v.to_text tr fw fh
        = v.text_body tr v.xAxis (Axis.new ry.lower ry.upper) fw fh) := by
  constructor
  · intro h
    have hax : v.xAxis = Axis.new rx.lower rx.upper := by
      rw [View.xAxis, resolved_x_range_of_some h]
    rw [View.to_svg, View.to_text, hax]
    exact ⟨rfl, rfl⟩
  · intro h
    have hay : v.yAxis = Axis.new ry.lower ry.upper := by
      rw [View.yAxis, resolved_y_range_of_some h]
    rw [View.to_svg, View.to_text, hay]
    exact ⟨rfl, rfl⟩

/-- Witness for C2: data inside `[0, 1]`, override `[-10, 10]` honored. -/
theorem C2_override_takes_precedence_witness :
    sampleOverrideView.x_range
      = some (Range.new (F64.val (-10)) (F64.val 10)) ∧
    sampleOverrideView.to_svg 10 10
      = sampleOverrideView.svg_body (Axis.new (F64.val (-10)) (F64.val 10))
          sampleOverrideView.yAxis 10 10 ∧
    sampleOverrideView.to_text sampleTR 10 5
      = sampleOverrideView.text_body sampleTR (Axis.new (F64.val (-10)) (F64.val 10))
          sampleOverrideView.yAxis 10 5 :=
  ⟨rfl,
    ((C2_override_takes_precedence sampleOverrideView sampleTR
        (Range.new (F64.val (-10)) (F64.val 10))
        (Range.new (F64.val (-10)) (F64.val 10)) 10 10 10 5).1 rfl).1,
    ((C2_override_takes_precedence sampleOverrideView sampleTR
        (Range.new (F64.val (-10)) (F64.val 10))
        (Range.new (F64.val (-10)) (F64.val 10)) 10 10 10 5).1 rfl).2⟩

/-- Counterexample to Claim C3 as stated: at `start_offset = i32::MIN`
(`-2^31`), `wrapping_neg` returns `i32::MIN` itself, so the computed gutter
is `longest_label_width + 1`, not `max(longest_label_width + 1,
-start_offset) = 2^31`. -/
theorem C3_counterexample :
    ¬ ((left_gutter_width 0 (-(2 ^ 31)) : Int)
        = max ((0 : Int) + 1) (-(-(2 ^ 31) : Int))) := by
  decide

/-- Claim C3 (amended): for every longest y-label width `longest ≥ 0` with
`longest + 1 < 2^31` and every signed x-axis start offset strictly between
`-2^31` and `2^31` (i.e. any `i32` other than `i32::MIN`), the computed left
gutter width equals `max(longest + 1, -start_offset)`. -/
theorem C3_left_gutter_width_amended (longest start_offset : Int)
    (h₀ : 0 ≤ longest) (h₁ : longest + 1 < 2 ^ 31)
    (h₂ : -(2 ^ 31) < start_offset) (h₃ : start_offset < 2 ^ 31) :
    (left_gutter_width longest start_offset : Int)
      = max (longest + 1) (-start_offset) := by
  rw [left_gutter_width_int longest start_offset h₀ h₁,
    i32.wrapping_neg_eq_neg h₂ (le_of_lt h₃)]

/-- Witness for the amended C3 at `longest = 2`, `start_offset = -4`. -/
theorem C3_left_gutter_width_amended_witness :
    (0 : Int) ≤ 2 ∧ (2 : Int) + 1 < 2 ^ 31 ∧
    -(2 ^ 31) < (-4 : Int) ∧ (-4 : Int) < 2 ^ 31 ∧
    (left_gutter_width 2 (-4) : Int) = max ((2 : Int) + 1) (-(-4 : Int)) :=
  ⟨by decide, by decide, by decide, by decide,
    C3_left_gutter_width_amended 2 (-4) (by decide) (by decide) (by decide)
      (by decide)⟩

/-- Claim C4: for every face size and every gutter width (hence every
combination of label widths), the blank base canvas built by `to_text` has
exactly `face_width + 2 + left_gutter_width` columns
(`face_width + 1 + left_gutter_width + 1`) and `face_height + 3` rows. -/
theorem C4_blank_canvas_dimensions (face_width face_height lgw : Nat) :
    (blank (face_width + 1 + lgw + 1) (face_height + 3)).length
      = face_height + 3 ∧
    ∀ s ∈ blank (face_width + 1 + lgw + 1) (face_height + 3),
      s.length = face_width + 2 + lgw := by
  constructor
  · simp [blank]
  · intro s hs
    simp only [blank, List.mem_map, List.mem_range] at hs
    obtain ⟨i, -, rfl⟩ := hs
    simp only [String.length, List.length_map, List.length_range]
    omega

/-- Witness for C4 at `face_width = 0`, `face_height = 0`, gutter `0`. -/
theorem C4_blank_canvas_dimensions_witness :
    ("  " ∈ blank (0 + 1 + 0 + 1) (0 + 3)) ∧
    (blank (0 + 1 + 0 + 1) (0 + 3)).length = 0 + 3 ∧
    ("  " : String).length = 0 + 2 + 0 :=
  ⟨by decide, (C4_blank_canvas_dimensions 0 0 0).1,
    (C4_blank_canvas_dimensions 0 0 0).2 "  " (by decide)⟩

/-- Claim C5: in `to_text` (with exact casts: nonnegative label width whose
successor and the face height fit in `i32`), every representation's face
block is overlaid in insertion order at horizontal offset
`left_gutter_width + 1` and vertical offset `0` onto the blank canvas, then
the y-axis label block at horizontal offset
`left_gutter_width - 1 - longest_label_width` and vertical offset `0`, then
the x-axis label block at horizontal offset `left_gutter_width` and vertical
offset `face_height`. -/
theorem C5_text_overlay_sequence (v : View) (tr : TextRender)
    (face_width face_height : Nat)
    (h₀ : 0 ≤ (tr.render_y_axis_strings v.yAxis face_height).2)
    (h₁ : (tr.render_y_axis_strings v.yAxis face_height).2 + 1 < 2 ^ 31)
    (h₂ : (face_height : Int) < 2 ^ 31) :
    v.to_text tr face_width face_height
      = (let longest := (tr.render_y_axis_strings v.yAxis face_height).2
         let lgw := left_gutter_width longest
           (tr.render_x_axis_strings v.xAxis face_width).2
         tr.overlay
           (tr.overlay
             (v.representations.foldl
               (fun s repr =>
                 tr.overlay s
                   (repr.to_text v.xAxis v.yAxis face_width face_height)
                   ((lgw : Int) + 1) 0)
               (String.intercalate "\n"
                 (blank (face_width + 1 + lgw + 1) (face_height + 3))))
             (tr.render_y_axis_strings v.yAxis face_height).1
             ((lgw : Int) - 1 - longest) 0)
           (tr.render_x_axis_strings v.xAxis face_width).1
           (lgw : Int) (face_height : Int)) := by
  have hlgw := i32_ofU32_left_gutter_width
    (tr.render_y_axis_strings v.yAxis face_height).2
    (tr.render_x_axis_strings v.xAxis face_width).2 h₀ h₁
  have hfh : i32.ofU32 face_height = (face_height : Int) := by
    unfold i32.ofU32
    exact i32.wrap_eq_self (le_trans (by omega) (Int.natCast_nonneg _)) h₂
  simp only [View.to_text, View.text_body, hlgw, hfh, add_zero]

/-- Witness for C5 at the view `[A, B]`, the sample text renderer, and face
size `3 × 2`. -/
theorem C5_text_overlay_sequence_witness :
    0 ≤ (sampleTR.render_y_axis_strings sampleViewAB.yAxis 2).2 ∧
    (sampleTR.render_y_axis_strings sampleViewAB.yAxis 2).2 + 1 < 2 ^ 31 ∧
    ((2 : Nat) : Int) < 2 ^ 31 ∧
    sampleViewAB.to_text sampleTR 3 2
      = (let longest := (sampleTR.render_y_axis_strings sampleViewAB.yAxis 2).2
         let lgw := left_gutter_width longest
           (sampleTR.render_x_axis_strings sampleViewAB.xAxis 3).2
         sampleTR.overlay
           (sampleTR.overlay
             (sampleViewAB.representations.foldl
               (fun s repr =>
                 sampleTR.overlay s
                   (repr.to_text sampleViewAB.xAxis sampleViewAB.yAxis 3 2)
                   ((lgw : Int) + 1) 0)
               (String.intercalate "\n" (blank (3 + 1 + lgw + 1) (2 + 3))))
             (sampleTR.render_y_axis_strings sampleViewAB.yAxis 2).1
             ((lgw : Int) - 1 - longest) 0)
           (sampleTR.render_x_axis_strings sampleViewAB.xAxis 3).1
           (lgw : Int) ((2 : Nat) : Int)) :=
  ⟨by decide, by decide, by decide,
    C5_text_overlay_sequence sampleViewAB sampleTR 3 2 (by decide) (by decide)
      (by decide)⟩

/-- Claim C9: when both range overrides are set, the output of `to_svg` and
`to_text` does not depend on the data extents the representations report:
two views with the same overrides whose representation lists agree pointwise
on their rendering functions (but may differ arbitrarily in `range`) render
identically. -/
theorem C9_range_noninterference (v₁ v₂ : View) (tr : TextRender)
    (rx ry : Range) (fwq fhq : ℚ) (fw fh : Nat)
    (hx₁ : v₁.x_range = some rx) (hy₁ : v₁.y_range = some ry)
    (hx₂ : v₂.x_range = some rx) (hy₂ : v₂.y_range = some ry)
    (hreps : List.Forall₂
      (fun r₁ r₂ => r₁.to_svg = r₂.to_svg ∧ r₁.to_text = r₂.to_text)
      v₁.representations v₂.representations) :
    v₁.to_svg fwq fhq = v₂.to_svg fwq fhq ∧
    v₁.to_text tr fw fh = v₂.to_text tr fw fh := by
  have hax : v₁.xAxis = v₂.xAxis := by
    rw [View.xAxis, View.xAxis, resolved_x_range_of_some hx₁,
      resolved_x_range_of_some hx₂]
  have hay : v₁.yAxis = v₂.yAxis := by
    rw [View.yAxis, View.yAxis, resolved_y_range_of_some hy₁,
      resolved_y_range_of_some hy₂]
  constructor
  · have hfold : ∀ b : List SvgNode,
        v₁.representations.foldl
          (fun g repr =>
            g ++ [SvgNode.reprDrawing (repr.to_svg v₂.xAxis v₂.yAxis fwq fhq)]) b
          = v₂.representations.foldl
          (fun g repr =>
            g ++ [SvgNode.reprDrawing (repr.to_svg v₂.xAxis v₂.yAxis fwq fhq)]) b :=
      foldl_congr_forall₂ hreps _ (fun b x y hxy => by rw [hxy.1])
    simp only [View.to_svg, View.svg_body, hax, hay, hfold]
  · have hfold : ∀ (b : String) (off : Int),
        v₁.representations.foldl
          (fun s repr =>
            tr.overlay s (repr.to_text v₂.xAxis v₂.yAxis fw fh) off 0) b
          = v₂.representations.foldl
          (fun s repr =>
            tr.overlay s (repr.to_text v₂.xAxis v₂.yAxis fw fh) off 0) b :=
      fun b off =>
        foldl_congr_forall₂ hreps _ (fun b x y hxy => by rw [hxy.2]) b
    simp only [View.to_text, View.text_body, hax, hay, hfold]

/-- Witness for C9: two concrete views whose single representations render
identically but report extents `[0, 1] × [2, 5]` versus `[100, 200]`. -/
theorem C9_range_noninterference_witness :
    sampleViewC9A.x_range = some (Range.new (F64.val 0) (F64.val 1)) ∧
    sampleViewC9A.y_range = some (Range.new (F64.val 0) (F64.val 1)) ∧
    sampleViewC9B.x_range = some (Range.new (F64.val 0) (F64.val 1)) ∧
    sampleViewC9B.y_range = some (Range.new (F64.val 0) (F64.val 1)) ∧
    List.Forall₂
      (fun r₁ r₂ => r₁.to_svg = r₂.to_svg ∧ r₁.to_text = r₂.to_text)
      sampleViewC9A.representations sampleViewC9B.representations ∧
    sampleViewC9A.to_svg 10 10 = sampleViewC9B.to_svg 10 10 ∧
    sampleViewC9A.to_text sampleTR 10 5 = sampleViewC9B.to_text sampleTR 10 5 := by
  have hf : List.Forall₂
      (fun r₁ r₂ => r₁.to_svg = r₂.to_svg ∧ r₁.to_text = r₂.to_text)
      sampleViewC9A.representations sampleViewC9B.representations :=
    List.Forall₂.cons ⟨rfl, rfl⟩ List.Forall₂.nil
  exact ⟨rfl, rfl, rfl, rfl, hf,
    (C9_range_noninterference sampleViewC9A sampleViewC9B sampleTR
      (Range.new (F64.val 0) (F64.val 1)) (Range.new (F64.val 0) (F64.val 1))
      10 10 10 5 rfl rfl rfl rfl hf).1,
    (C9_range_noninterference sampleViewC9A sampleViewC9B sampleTR
      (Range.new (F64.val 0) (F64.val 1)) (Range.new (F64.val 0) (F64.val 1))
      10 10 10 5 rfl rfl rfl rfl hf).2⟩

end Plotlib
